import Mathlib

/-!
# Ensabun backend: request-to-query mapping of `server.js`

A shallow embedding of the Express handlers of `src/server.js`.  Every handler
becomes a function from the request data (path parameters, body fields) and a
store to an `Outcome`: the response passed to `res.json`, the list of statements
passed to `promisePool.execute` in order, and the store state afterwards.

The store (`./db`, a mysql2 promise pool) is a parameter: an arbitrary function
`execute` that, for a statement, either resolves to a result (an array of rows or
a result header) or throws.
-/

namespace Ensabun

/-! ## JavaScript values -/

/-- JavaScript values as they occur in request bodies, path parameters and result
cells.  `undefined` stands for an absent property.  `num` is a number with an
integer value (negative zero is not told apart from 0); `dec` is a finite number
that is not an integer, kept as its decimal text (the handlers only test numbers
for truthiness and pass them through); `infinity` is one of the two infinities.
Objects and arrays are kept as their JSON text; the handlers never look inside
one. -/
inductive JsVal where
  | undefined
  | null
  | nan
  | infinity (negative : Bool)
  | bool (b : Bool)
  | num (n : Int)
  | dec (text : String)
  | str (s : String)
  | obj (repr : String)
deriving DecidableEq, Repr

/-- ToBoolean: the test made by `!x` and `x || y`. -/
def JsVal.truthy : JsVal → Bool
  | .undefined => false
  | .null => false
  | .nan => false
  | .infinity _ => true
  | .bool b => b
  | .num n => decide (n ≠ 0)
  | .dec _ => true
  | .str s => decide (s ≠ "")
  | .obj _ => true

/-- The JavaScript expression `a || b`. -/
def JsVal.orElse (a b : JsVal) : JsVal := if a.truthy then a else b

/-- A result row, or any plain object: property names with their values. -/
abbrev Row := List (String × JsVal)

/-- Property read `row.key`; `undefined` when the property is absent. -/
def Row.get (r : Row) (key : String) : JsVal :=
  match r.lookup key with
  | some v => v
  | none => .undefined

/-- An error object that was thrown; only its `message` is ever read. -/
structure JsError where
  message : String
deriving DecidableEq, Repr

/-! ## The store -/

/-- A call `promisePool.execute(sql, params)`.  A call without a second argument
has `params = []`. -/
structure Stmt where
  sql : String
  params : List JsVal
deriving DecidableEq, Repr

/-- First component of what `execute` resolves to: an array of rows (SELECT) or a
result header (INSERT, UPDATE, DELETE). -/
inductive ExecResult where
  | rows (rs : List Row)
  | header (affectedRows insertId : Nat)
deriving DecidableEq, Repr

/-- What awaiting `execute` does: resolve to a result, or throw. -/
inductive Reply where
  | ok (r : ExecResult)
  | throws (e : JsError)
deriving DecidableEq, Repr

/-- The store as the handlers see it: a state of type `σ` and the effect of one
`execute` call on it. -/
abbrev Execute (σ : Type) := σ → Stmt → Reply × σ

/-- Values placed under a key of the object given to `res.json`. -/
inductive Field where
  | val (v : JsVal)
  | object (r : Row)
  | array (rs : List Row)
deriving DecidableEq, Repr

/-- The expression `x.length`: defined on arrays, `undefined` on a result header. -/
def ExecResult.length : ExecResult → JsVal
  | .rows rs => .num rs.length
  | .header _ _ => .undefined

/-- The expression `x.affectedRows`: defined on a result header only. -/
def ExecResult.affectedRows : ExecResult → JsVal
  | .rows _ => .undefined
  | .header a _ => .num a

/-- The expression `x.insertId`: defined on a result header only. -/
def ExecResult.insertId : ExecResult → JsVal
  | .rows _ => .undefined
  | .header _ i => .num i

/-- The expression `x[0]`. -/
def ExecResult.first : ExecResult → Field
  | .rows (r :: _) => .object r
  | .rows [] => .val .undefined
  | .header _ _ => .val .undefined

/-- The value `x` itself, as placed under `data`. -/
def ExecResult.asField : ExecResult → Field
  | .rows rs => .array rs
  | .header a i => .object [("affectedRows", .num a), ("insertId", .num i)]

/-! ## Responses -/

/-- A response: the status set by `res.status` (200 when it is not called) and the
object given to `res.json`, as its keys in order. -/
structure Response where
  status : Nat
  body : List (String × Field)
deriving DecidableEq, Repr

/-- Result of running one handler. -/
structure Outcome (σ : Type) where
  response : Response
  trace : List Stmt
  final : σ
deriving DecidableEq

/-- Value under `key` in the response body. -/
def Response.field (r : Response) (key : String) : Option Field := r.body.lookup key

/-- The shape `res.status(code).json(\x7b success: false, message \x7d)`. -/
def failure (code : Nat) (msg : String) : Response :=
  ⟨code, [("success", .val (.bool false)), ("message", .val (.str msg))]⟩

/-- The shape every catch block of a handler builds:
`res.status(500).json(\x7b success: false, message, error: error.message \x7d)`. -/
def caught (msg : String) (error : JsError) : Response :=
  ⟨500, [("success", .val (.bool false)), ("message", .val (.str msg)),
         ("error", .val (.str error.message))]⟩

/-- The shape of the collection responses: `success`, `data: rows`, `count: rows.length`. -/
def listed (rows : ExecResult) : Response :=
  ⟨200, [("success", .val (.bool true)), ("data", rows.asField), ("count", .val rows.length)]⟩

/-- The shape of the update and delete successes. -/
def affected (msg : String) (result : ExecResult) : Response :=
  ⟨200, [("success", .val (.bool true)), ("message", .val (.str msg)),
         ("affectedRows", .val result.affectedRows)]⟩

/-! ## Environment -/

/-- What the handlers read from outside the request: `process.env.NODE_ENV`, the
clock, the connectivity probe, and the engine's answer to `x > 0` for the values
whose numeric value is not modelled (strings and objects, which are first coerced
to a number, and non-integer numbers). -/
structure Env where
  nodeEnv : Option String
  now : String
  dbStatus : Bool
  coercedGtZero : JsVal → Bool

/-- The JavaScript comparison `v > 0`. -/
def jsGtZero (env : Env) : JsVal → Bool
  | .undefined => false
  | .null => false
  | .nan => false
  | .infinity negative => !negative
  | .bool b => b
  | .num n => decide (0 < n)
  | .dec t => env.coercedGtZero (.dec t)
  | .str s => env.coercedGtZero (.str s)
  | .obj o => env.coercedGtZero (.obj o)

/-- Request body as the handlers destructure it: the six properties they read,
`undefined` when a property is absent. -/
structure Body where
  productType : JsVal := .undefined
  productName : JsVal := .undefined
  totalCost : JsVal := .undefined
  salePrice : JsVal := .undefined
  stockAmount : JsVal := .undefined
  productTypeID : JsVal := .undefined
deriving DecidableEq, Repr

/-! ## Product type handlers -/

section Handlers
variable {σ : Type}

/-- Handler `app.get('/api/product-types')`. -/
def getProductTypes (db : Execute σ) (s : σ) : Outcome σ :=
  let q : Stmt := ⟨"SELECT * FROM productType ORDER BY productTypeID", []⟩
  match (db s q).1 with
  | .throws error => ⟨caught "Error fetching product types" error, [q], (db s q).2⟩
  | .ok rows => ⟨listed rows, [q], (db s q).2⟩

/-- Handler `app.get('/api/product-types/:id')`. -/
def getProductType (db : Execute σ) (s : σ) (id : String) : Outcome σ :=
  let q : Stmt := ⟨"SELECT * FROM productType WHERE productTypeID = ?", [.str id]⟩
  match (db s q).1 with
  | .throws error => ⟨caught "Error fetching product type" error, [q], (db s q).2⟩
  | .ok rows =>
    if rows.length = .num 0 then
      ⟨failure 404 "Product type not found", [q], (db s q).2⟩
    else
      ⟨⟨200, [("success", .val (.bool true)), ("data", rows.first)]⟩, [q], (db s q).2⟩

/-- Handler `app.post('/api/product-types')`. -/
def postProductType (db : Execute σ) (s : σ) (body : Body) : Outcome σ :=
  if !body.productType.truthy then
    ⟨failure 400 "productType is required", [], s⟩
  else
    let q : Stmt := ⟨"INSERT INTO productType (productType) VALUES (?)", [body.productType]⟩
    match (db s q).1 with
    | .throws error => ⟨caught "Error creating product type" error, [q], (db s q).2⟩
    | .ok _ =>
      ⟨⟨201, [("success", .val (.bool true)),
              ("message", .val (.str "Product type created successfully")),
              ("data", .object [("productType", body.productType)])]⟩, [q], (db s q).2⟩

/-- Handler `app.put('/api/product-types/:id')`. -/
def putProductType (db : Execute σ) (s : σ) (id : String) (body : Body) : Outcome σ :=
  if !body.productType.truthy then
    ⟨failure 400 "productType is required", [], s⟩
  else
    let q : Stmt :=
      ⟨"UPDATE productType SET productType = ? WHERE productTypeID = ?", [body.productType, .str id]⟩
    match (db s q).1 with
    | .throws error => ⟨caught "Error updating product type" error, [q], (db s q).2⟩
    | .ok result =>
      if result.affectedRows = .num 0 then
        ⟨failure 404 "Product type not found", [q], (db s q).2⟩
      else
        ⟨affected "Product type updated successfully" result, [q], (db s q).2⟩

/-- The COUNT statement of the product type delete. -/
def countProductsOfType (id : String) : Stmt :=
  ⟨"SELECT COUNT(*) as count FROM product WHERE productTypeID = ?", [.str id]⟩

/-- The DELETE statement of the product type delete. -/
def deleteProductTypeStmt (id : String) : Stmt :=
  ⟨"DELETE FROM productType WHERE productTypeID = ?", [.str id]⟩

/-- The TypeError of reading `.count` of `products[0]` when that is `undefined`. -/
def countOfUndefined : JsError :=
  ⟨"Cannot read properties of undefined (reading 'count')"⟩

/-- Handler `app.delete('/api/product-types/:id')`. -/
def deleteProductType (env : Env) (db : Execute σ) (s : σ) (id : String) : Outcome σ :=
  let q1 := countProductsOfType id
  match (db s q1).1 with
  | .throws error => ⟨caught "Error deleting product type" error, [q1], (db s q1).2⟩
  | .ok products =>
    match products.first with
    | .object row =>
      if jsGtZero env (row.get "count") then
        ⟨failure 400 "Cannot delete product type. There are products using this type.",
          [q1], (db s q1).2⟩
      else
        let s1 := (db s q1).2
        let q2 := deleteProductTypeStmt id
        match (db s1 q2).1 with
        | .throws error => ⟨caught "Error deleting product type" error, [q1, q2], (db s1 q2).2⟩
        | .ok result =>
          if result.affectedRows = .num 0 then
            ⟨failure 404 "Product type not found", [q1, q2], (db s1 q2).2⟩
          else
            ⟨affected "Product type deleted successfully" result, [q1, q2], (db s1 q2).2⟩
    | _ => ⟨caught "Error deleting product type" countOfUndefined, [q1], (db s q1).2⟩

/-! ## Product handlers -/

/-- The column list and join shared by the four product SELECT templates, with
the line breaks and indentation of the template literals. -/
def productSelect : String :=
  "\n      SELECT \n        p.productID,\n        p.productName,\n        p.totalCost,\n" ++
  "        p.salePrice,\n        p.stockAmount,\n        p.productTypeID,\n" ++
  "        pt.productType\n      FROM product p\n" ++
  "      LEFT JOIN productType pt ON p.productTypeID = pt.productTypeID\n"

/-- Handler `app.get('/api/products')`. -/
def getProducts (db : Execute σ) (s : σ) : Outcome σ :=
  let q : Stmt := ⟨productSelect ++ "      ORDER BY p.productID\n    ", []⟩
  match (db s q).1 with
  | .throws error => ⟨caught "Error fetching products" error, [q], (db s q).2⟩
  | .ok rows => ⟨listed rows, [q], (db s q).2⟩

/-- Handler `app.get('/api/products/:id')`. -/
def getProduct (db : Execute σ) (s : σ) (id : String) : Outcome σ :=
  let q : Stmt := ⟨productSelect ++ "      WHERE p.productID = ?\n    ", [.str id]⟩
  match (db s q).1 with
  | .throws error => ⟨caught "Error fetching product" error, [q], (db s q).2⟩
  | .ok rows =>
    if rows.length = .num 0 then
      ⟨failure 404 "Product not found", [q], (db s q).2⟩
    else
      ⟨⟨200, [("success", .val (.bool true)), ("data", rows.first)]⟩, [q], (db s q).2⟩

/-- The existence lookup made before a product write ("Verify product type exists"). -/
def typeCheckStmt (productTypeID : JsVal) : Stmt :=
  ⟨"SELECT productTypeID FROM productType WHERE productTypeID = ?", [productTypeID]⟩

/-- The INSERT of the product create, with the `|| 0` defaults of its three
numeric parameters. -/
def insertProductStmt (body : Body) : Stmt :=
  ⟨"INSERT INTO product (productName, totalCost, salePrice, stockAmount, productTypeID) VALUES (?, ?, ?, ?, ?)",
   [body.productName, body.totalCost.orElse (.num 0), body.salePrice.orElse (.num 0),
    body.stockAmount.orElse (.num 0), body.productTypeID]⟩

/-- Handler `app.post('/api/products')`. -/
def postProduct (db : Execute σ) (s : σ) (body : Body) : Outcome σ :=
  if !body.productName.truthy || !body.productTypeID.truthy then
    ⟨failure 400 "productName and productTypeID are required", [], s⟩
  else
    let q1 := typeCheckStmt body.productTypeID
    match (db s q1).1 with
    | .throws error => ⟨caught "Error creating product" error, [q1], (db s q1).2⟩
    | .ok typeCheck =>
      if typeCheck.length = .num 0 then
        ⟨failure 400 "Invalid productTypeID", [q1], (db s q1).2⟩
      else
        let s1 := (db s q1).2
        let q2 := insertProductStmt body
        match (db s1 q2).1 with
        | .throws error => ⟨caught "Error creating product" error, [q1, q2], (db s1 q2).2⟩
        | .ok result =>
          ⟨⟨201, [("success", .val (.bool true)),
                  ("message", .val (.str "Product created successfully")),
                  ("insertId", .val result.insertId)]⟩, [q1, q2], (db s1 q2).2⟩

/-- The part of `app.put('/api/products/:id')` after the `productTypeID` block: the
empty-update check, `values.push(id)`, the UPDATE and the reading of its result.
`issued` is the list of statements already executed. -/
def putProductFinish (db : Execute σ) (s : σ) (id : String) (updates : List String)
    (values : List JsVal) (issued : List Stmt) : Outcome σ :=
  if updates.length = 0 then
    ⟨failure 400 "No fields to update", issued, s⟩
  else
    let values := values ++ [.str id]
    let q : Stmt :=
      ⟨"UPDATE product SET " ++ ", ".intercalate updates ++ " WHERE productID = ?", values⟩
    match (db s q).1 with
    | .throws error => ⟨caught "Error updating product" error, issued ++ [q], (db s q).2⟩
    | .ok result =>
      if result.affectedRows = .num 0 then
        ⟨failure 404 "Product not found", issued ++ [q], (db s q).2⟩
      else
        ⟨affected "Product updated successfully" result, issued ++ [q], (db s q).2⟩

/-- Handler `app.put('/api/products/:id')`: the dynamic update. -/
def putProduct (db : Execute σ) (s : σ) (id : String) (body : Body) : Outcome σ :=
  let updates : List String := []
  let values : List JsVal := []
  let updates := if body.productName ≠ .undefined then updates ++ ["productName = ?"] else updates
  let values := if body.productName ≠ .undefined then values ++ [body.productName] else values
  let updates := if body.totalCost ≠ .undefined then updates ++ ["totalCost = ?"] else updates
  let values := if body.totalCost ≠ .undefined then values ++ [body.totalCost] else values
  let updates := if body.salePrice ≠ .undefined then updates ++ ["salePrice = ?"] else updates
  let values := if body.salePrice ≠ .undefined then values ++ [body.salePrice] else values
  let updates := if body.stockAmount ≠ .undefined then updates ++ ["stockAmount = ?"] else updates
  let values := if body.stockAmount ≠ .undefined then values ++ [body.stockAmount] else values
  if body.productTypeID ≠ .undefined then
    let q1 := typeCheckStmt body.productTypeID
    match (db s q1).1 with
    | .throws error => ⟨caught "Error updating product" error, [q1], (db s q1).2⟩
    | .ok typeCheck =>
      if typeCheck.length = .num 0 then
        ⟨failure 400 "Invalid productTypeID", [q1], (db s q1).2⟩
      else
        putProductFinish db (db s q1).2 id (updates ++ ["productTypeID = ?"])
          (values ++ [body.productTypeID]) [q1]
  else
    putProductFinish db s id updates values []

/-- The UPDATE of the dedicated type update. -/
def updateTypeStmt (id : String) (productTypeID : JsVal) : Stmt :=
  ⟨"UPDATE product SET productTypeID = ? WHERE productID = ?", [productTypeID, .str id]⟩

/-- Handler `app.put('/api/products/:id/typeID')`. -/
def putProductTypeID (db : Execute σ) (s : σ) (id : String) (body : Body) : Outcome σ :=
  let q1 := typeCheckStmt body.productTypeID
  match (db s q1).1 with
  | .throws error => ⟨caught "Error updating product type" error, [q1], (db s q1).2⟩
  | .ok typeCheck =>
    if typeCheck.length = .num 0 then
      ⟨failure 400 "Invalid productTypeID", [q1], (db s q1).2⟩
    else
      let s1 := (db s q1).2
      let q2 := updateTypeStmt id body.productTypeID
      match (db s1 q2).1 with
      | .throws error => ⟨caught "Error updating product type" error, [q1, q2], (db s1 q2).2⟩
      | .ok result =>
        if result.affectedRows = .num 0 then
          ⟨failure 404 "Product not found", [q1, q2], (db s1 q2).2⟩
        else
          ⟨affected "Product type updated successfully" result, [q1, q2], (db s1 q2).2⟩

/-- Handler `app.delete('/api/products/:id')`. -/
def deleteProduct (db : Execute σ) (s : σ) (id : String) : Outcome σ :=
  let q : Stmt := ⟨"DELETE FROM product WHERE productID = ?", [.str id]⟩
  match (db s q).1 with
  | .throws error => ⟨caught "Error deleting product" error, [q], (db s q).2⟩
  | .ok result =>
    if result.affectedRows = .num 0 then
      ⟨failure 404 "Product not found", [q], (db s q).2⟩
    else
      ⟨affected "Product deleted successfully" result, [q], (db s q).2⟩

/-- Handler `app.get('/api/products/search/:name')`. -/
def searchProducts (db : Execute σ) (s : σ) (name : String) : Outcome σ :=
  let q : Stmt :=
    ⟨productSelect ++ "      WHERE p.productName LIKE ?\n      ORDER BY p.productName\n    ",
     [.str ("%" ++ name ++ "%")]⟩
  match (db s q).1 with
  | .throws error => ⟨caught "Error searching products" error, [q], (db s q).2⟩
  | .ok rows => ⟨listed rows, [q], (db s q).2⟩

/-- Handler `app.get('/api/products/by-type/:typeId')`. -/
def productsByType (db : Execute σ) (s : σ) (typeId : String) : Outcome σ :=
  let q : Stmt :=
    ⟨productSelect ++ "      WHERE p.productTypeID = ?\n      ORDER BY p.productName\n    ",
     [.str typeId]⟩
  match (db s q).1 with
  | .throws error => ⟨caught "Error fetching products by type" error, [q], (db s q).2⟩
  | .ok rows => ⟨listed rows, [q], (db s q).2⟩

end Handlers

/-! ## `parseInt` -/

/-- White space and line terminators skipped by `parseInt` (StrWhiteSpaceChar). -/
def isStrWhiteSpace (c : Char) : Bool :=
  let n := c.toNat
  n == 0x09 || n == 0x0A || n == 0x0B || n == 0x0C || n == 0x0D || n == 0x20 || n == 0xA0 ||
  n == 0x1680 || (0x2000 ≤ n && n ≤ 0x200A) || n == 0x2028 || n == 0x2029 || n == 0x202F ||
  n == 0x205F || n == 0x3000 || n == 0xFEFF

/-- Value of `c` as a digit of the given radix, if it is one. -/
def digitValue (radix : Nat) (c : Char) : Option Nat :=
  let n := c.toNat
  let d : Option Nat :=
    if 48 ≤ n && n ≤ 57 then some (n - 48)
    else if 97 ≤ n && n ≤ 122 then some (n - 97 + 10)
    else if 65 ≤ n && n ≤ 90 then some (n - 65 + 10)
    else none
  d.filter (fun v => v < radix)

/-- Longest leading run of digits of the given radix, as digit values. -/
def takeDigits (radix : Nat) : List Char → List Nat
  | [] => []
  | c :: cs =>
    match digitValue radix c with
    | some d => d :: takeDigits radix cs
    | none => []

/-- Number of low bits an integer has beyond 53 significant bits: the least `k`
with `m / 2 ^ k < 2 ^ 53`, searched in at most `fuel` halvings. -/
def excessBits : Nat → Nat → Nat
  | 0, _ => 0
  | fuel + 1, m => if m < 2 ^ 53 then 0 else excessBits fuel (m / 2) + 1

/-- The Number value of a non-negative integer: the integer itself below 2^53,
otherwise the nearest integer with 53 significant bits, ties to the even one;
`none` when that is 2^1024 or more, which is `Infinity`. -/
def roundToDouble (m : Nat) : Option Nat :=
  let shift := excessBits m m
  if shift = 0 then some m
  else
    let q := m / 2 ^ shift
    let r := m % 2 ^ shift
    let half := 2 ^ (shift - 1)
    let q1 := if half < r ∨ (r = half ∧ q % 2 = 1) then q + 1 else q
    if shift + 53 ≤ 1024 ∧ (q1 < 2 ^ 53 ∨ shift + 53 < 1024) then some (q1 * 2 ^ shift)
    else none

/-- `parseInt(s)` on a string, without a radix argument: skip white space, read a
sign, switch to radix 16 after `0x` or `0X`, read the longest run of digits; `NaN`
when that run is empty.  The result is the Number value of the integer read: the
integer rounded to a double, as the engine of Node.js computes it. -/
def parseIntString (s : String) : JsVal :=
  let cs := s.toList.dropWhile isStrWhiteSpace
  let signed : Bool × List Char :=
    match cs with
    | '-' :: rest => (true, rest)
    | '+' :: rest => (false, rest)
    | _ => (false, cs)
  let based : Nat × List Char :=
    match signed.2 with
    | '0' :: 'x' :: rest => (16, rest)
    | '0' :: 'X' :: rest => (16, rest)
    | _ => (10, signed.2)
  let digits := takeDigits based.1 based.2
  if digits = [] then .nan
  else
    let mathInt : Nat := digits.foldl (fun acc d => acc * based.1 + d) 0
    match roundToDouble mathInt with
    | some m => .num (if signed.1 then -(m : Int) else (m : Int))
    | none => .infinity signed.1

/-- `parseInt(v)`: the argument is first converted to a string.  The handler passes
a path segment or the number 10; `undefined`, `null`, `NaN`, the infinities,
booleans and plain objects convert to texts without a leading digit and parse to
`NaN`. -/
def parseInt : JsVal → JsVal
  | .str s => parseIntString s
  | .num n => parseIntString (toString n)
  | .dec t => parseIntString t
  | _ => .nan

section MoreHandlers
variable {σ : Type}

/-- The statement of the low-stock listing for a bound threshold. -/
def lowStockStmt (threshold : JsVal) : Stmt :=
  ⟨productSelect ++
    "      WHERE p.stockAmount <= ?\n      ORDER BY p.stockAmount ASC, p.productName\n    ",
   [threshold]⟩

/-- Value of an optional path parameter: a string, or `undefined` when the segment
is missing. -/
def paramValue : Option String → JsVal
  | some t => .str t
  | none => .undefined

/-- Handler `app.get('/api/products/low-stock/:threshold?')`. -/
def lowStock (db : Execute σ) (s : σ) (param : Option String) : Outcome σ :=
  let threshold := (paramValue param).orElse (.num 10)
  let q := lowStockStmt threshold
  match (db s q).1 with
  | .throws error => ⟨caught "Error fetching low stock products" error, [q], (db s q).2⟩
  | .ok rows =>
    ⟨⟨200, [("success", .val (.bool true)), ("data", rows.asField), ("count", .val rows.length),
            ("threshold", .val (parseInt threshold))]⟩, [q], (db s q).2⟩

/-! ## Generic handlers -/

/-- Handler `app.get('/api/generic/:table')`. -/
def genericList (db : Execute σ) (s : σ) (table : String) : Outcome σ :=
  let q : Stmt := ⟨"SELECT * FROM ??", [.str table]⟩
  match (db s q).1 with
  | .throws error => ⟨caught "Error fetching data" error, [q], (db s q).2⟩
  | .ok rows => ⟨listed rows, [q], (db s q).2⟩

/-- Handler `app.get('/api/generic/:table/:id')`. -/
def genericGet (db : Execute σ) (s : σ) (table id : String) : Outcome σ :=
  let q : Stmt := ⟨"SELECT * FROM ?? WHERE id = ?", [.str table, .str id]⟩
  match (db s q).1 with
  | .throws error => ⟨caught "Error fetching record" error, [q], (db s q).2⟩
  | .ok rows =>
    if rows.length = .num 0 then
      ⟨failure 404 "Record not found", [q], (db s q).2⟩
    else
      ⟨⟨200, [("success", .val (.bool true)), ("data", rows.first)]⟩, [q], (db s q).2⟩

/-- Handler `app.get('/api/generic/:table/search/:field/:value')`. -/
def genericSearch (db : Execute σ) (s : σ) (table field value : String) : Outcome σ :=
  let q : Stmt :=
    ⟨"SELECT * FROM ?? WHERE ?? LIKE ?", [.str table, .str field, .str ("%" ++ value ++ "%")]⟩
  match (db s q).1 with
  | .throws error => ⟨caught "Error searching records" error, [q], (db s q).2⟩
  | .ok rows => ⟨listed rows, [q], (db s q).2⟩

/-! ## Routes outside `/api`, the error middleware and the fallback -/

/-- Handler `app.get('/')`. -/
def root (env : Env) : Response :=
  ⟨200, [("message", .val (.str "Ensabun Backend API is running!")),
         ("status", .val (.str "success")),
         ("timestamp", .val (.str env.now))]⟩

/-- Handler `app.get('/health')`. -/
def health (env : Env) : Response :=
  ⟨200, [("status", .val (.str "ok")),
         ("database", .val (.str (if env.dbStatus then "connected" else "disconnected"))),
         ("timestamp", .val (.str env.now))]⟩

/-- The error handling middleware `app.use((err, req, res, next) => ...)`. -/
def errorMiddleware (env : Env) (err : JsError) : Response :=
  ⟨500, [("success", .val (.bool false)),
         ("message", .val (.str "Internal server error")),
         ("error", .val (.str (if env.nodeEnv = some "development" then err.message
                               else "Something went wrong")))]⟩

/-- The fallback `app.use('*', ...)`. -/
def notFound : Response := failure 404 "Endpoint not found"

/-- A request after routing: the route that handles it, with its path parameters
and body.  `escaped err` is an error handed to the error middleware (for example by
the body parser); `unmatched` is a request no route matches. -/
inductive Request where
  | root
  | health
  | getProductTypes
  | getProductType (id : String)
  | postProductType (body : Body)
  | putProductType (id : String) (body : Body)
  | deleteProductType (id : String)
  | getProducts
  | getProduct (id : String)
  | postProduct (body : Body)
  | putProduct (id : String) (body : Body)
  | putProductTypeID (id : String) (body : Body)
  | deleteProduct (id : String)
  | searchProducts (name : String)
  | productsByType (typeId : String)
  | lowStock (threshold : Option String)
  | genericList (table : String)
  | genericGet (table id : String)
  | genericSearch (table field value : String)
  | escaped (err : JsError)
  | unmatched
deriving DecidableEq, Repr

/-- The server: each routed request run by its handler. -/
def handle (env : Env) (db : Execute σ) (s : σ) : Request → Outcome σ
  | .root => ⟨root env, [], s⟩
  | .health => ⟨health env, [], s⟩
  | .getProductTypes => getProductTypes db s
  | .getProductType id => getProductType db s id
  | .postProductType body => postProductType db s body
  | .putProductType id body => putProductType db s id body
  | .deleteProductType id => deleteProductType env db s id
  | .getProducts => getProducts db s
  | .getProduct id => getProduct db s id
  | .postProduct body => postProduct db s body
  | .putProduct id body => putProduct db s id body
  | .putProductTypeID id body => putProductTypeID db s id body
  | .deleteProduct id => deleteProduct db s id
  | .searchProducts name => searchProducts db s name
  | .productsByType typeId => productsByType db s typeId
  | .lowStock threshold => lowStock db s threshold
  | .genericList table => genericList db s table
  | .genericGet table id => genericGet db s table id
  | .genericSearch table field value => genericSearch db s table field value
  | .escaped err => ⟨errorMiddleware env err, [], s⟩
  | .unmatched => ⟨notFound, [], s⟩

end MoreHandlers

/-! ## Routing -/

/-- Request methods.  `HEAD` is served by the `GET` routes; `OTHER` stands for every
method without a route (a preflight `OPTIONS`, answered by the CORS middleware, is
not modelled). -/
inductive Method where
  | GET
  | POST
  | PUT
  | DELETE
  | HEAD
  | OTHER
deriving DecidableEq, Repr

/-- One segment of a route path: literal text, a parameter `:name`, or an optional
last parameter `:name?`. -/
inductive PathPart where
  | lit (text : String)
  | param
  | optional
deriving DecidableEq, Repr

/-- Match of a route path against the decoded, non-empty segments of a request
path: the captured parameters in order.  Literal text is compared without regard
to ASCII case, a parameter takes exactly one segment. -/
def matchPath : List PathPart → List String → Option (List String)
  | [], [] => some []
  | [.optional], [] => some []
  | .lit text :: parts, seg :: segs =>
    if seg.toList.map Char.toLower = text.toList.map Char.toLower then matchPath parts segs
    else none
  | .param :: parts, seg :: segs => (matchPath parts segs).map (fun caps => seg :: caps)
  | .optional :: parts, seg :: segs => (matchPath parts segs).map (fun caps => seg :: caps)
  | _, _ => none

/-- A registered route: its method, its path, and the handler invocation for the
captured parameters and the body. -/
structure Route where
  method : Method
  path : List PathPart
  run : List String → Body → Request

/-- Whether a route registered for `registered` serves a request of method `m`. -/
def Method.servedBy (m registered : Method) : Bool :=
  m = registered || (m = .HEAD && registered = .GET)

/-- The routes of `server.js` in the order of their registration. -/
def routes : List Route :=
  [ ⟨.GET, [], fun _ _ => .root⟩,
    ⟨.GET, [.lit "health"], fun _ _ => .health⟩,
    ⟨.GET, [.lit "api", .lit "product-types"], fun _ _ => .getProductTypes⟩,
    ⟨.GET, [.lit "api", .lit "product-types", .param],
      fun caps _ => match caps with | [id] => .getProductType id | _ => .unmatched⟩,
    ⟨.POST, [.lit "api", .lit "product-types"], fun _ body => .postProductType body⟩,
    ⟨.PUT, [.lit "api", .lit "product-types", .param],
      fun caps body => match caps with | [id] => .putProductType id body | _ => .unmatched⟩,
    ⟨.DELETE, [.lit "api", .lit "product-types", .param],
      fun caps _ => match caps with | [id] => .deleteProductType id | _ => .unmatched⟩,
    ⟨.GET, [.lit "api", .lit "products"], fun _ _ => .getProducts⟩,
    ⟨.GET, [.lit "api", .lit "products", .param],
      fun caps _ => match caps with | [id] => .getProduct id | _ => .unmatched⟩,
    ⟨.POST, [.lit "api", .lit "products"], fun _ body => .postProduct body⟩,
    ⟨.PUT, [.lit "api", .lit "products", .param],
      fun caps body => match caps with | [id] => .putProduct id body | _ => .unmatched⟩,
    ⟨.PUT, [.lit "api", .lit "products", .param, .lit "typeID"],
      fun caps body => match caps with | [id] => .putProductTypeID id body | _ => .unmatched⟩,
    ⟨.DELETE, [.lit "api", .lit "products", .param],
      fun caps _ => match caps with | [id] => .deleteProduct id | _ => .unmatched⟩,
    ⟨.GET, [.lit "api", .lit "products", .lit "search", .param],
      fun caps _ => match caps with | [name] => .searchProducts name | _ => .unmatched⟩,
    ⟨.GET, [.lit "api", .lit "products", .lit "by-type", .param],
      fun caps _ => match caps with | [typeId] => .productsByType typeId | _ => .unmatched⟩,
    ⟨.GET, [.lit "api", .lit "products", .lit "low-stock", .optional],
      fun caps _ => .lowStock caps.head?⟩,
    ⟨.GET, [.lit "api", .lit "generic", .param],
      fun caps _ => match caps with | [table] => .genericList table | _ => .unmatched⟩,
    ⟨.GET, [.lit "api", .lit "generic", .param, .param],
      fun caps _ => match caps with | [table, id] => .genericGet table id | _ => .unmatched⟩,
    ⟨.GET, [.lit "api", .lit "generic", .param, .lit "search", .param, .param],
      fun caps _ =>
        match caps with
        | [table, field, value] => .genericSearch table field value
        | _ => .unmatched⟩ ]

/-- The invocation a route makes for a request, if the route serves it. -/
def Route.serve (r : Route) (m : Method) (path : List String) (body : Body) :
    Option Request :=
  if m.servedBy r.method then (matchPath r.path path).map (fun caps => r.run caps body)
  else none

/-- Dispatch of a request: the first registered route that serves it handles it (no
handler passes the request on); without one the fallback `app.use('*', ...)` does. -/
def dispatch (m : Method) (path : List String) (body : Body) : Request :=
  match routes.findSome? (fun r => r.serve m path body) with
  | some req => req
  | none => .unmatched

/-- The server on a request given by its method, path segments and body. -/
def serve {σ : Type} (env : Env) (db : Execute σ) (s : σ) (m : Method) (path : List String)
    (body : Body) : Outcome σ :=
  handle env db s (dispatch m path body)

/-! ## Stores used in the examples -/

/-- A store that answers the calls of a request from a script, in order; it throws
once the script is used up.  Its state is the rest of the script. -/
def scripted : Execute (List Reply)
  | [], _ => (.throws ⟨"no reply scripted"⟩, [])
  | r :: rest, _ => (r, rest)

/-- A store without any row: every SELECT returns no row, except a COUNT, which
returns 0, and every write affects no row. -/
def emptyStore : Execute Unit := fun _ q =>
  let text := q.sql.toList.dropWhile isStrWhiteSpace
  if text.take 12 = "SELECT COUNT".toList then (.ok (.rows [[("count", .num 0)]]), ())
  else if text.take 6 = "SELECT".toList then (.ok (.rows []), ())
  else (.ok (.header 0 0), ())

/-- An environment outside development. -/
def production : Env := ⟨some "production", "2024-01-01T00:00:00.000Z", true, fun _ => false⟩

/-! ## The dynamic update, as the specification words it -/

/-- The five mutable product fields in their fixed order, with their values in a
request body. -/
def mutableFields (b : Body) : List (String × JsVal) :=
  [("productName", b.productName), ("totalCost", b.totalCost), ("salePrice", b.salePrice),
   ("stockAmount", b.stockAmount), ("productTypeID", b.productTypeID)]

/-- The fields present in the body: those whose value is not `undefined`. -/
def presentFields (b : Body) : List (String × JsVal) :=
  (mutableFields b).filter (fun f => decide (f.2 ≠ .undefined))

/-- One assignment clause per present field. -/
def updateClauses (b : Body) : List String :=
  (presentFields b).map (fun f => f.1 ++ " = ?")

/-- The UPDATE the specification describes: the clauses of the present fields, and
their values followed by the path id as parameters. -/
def expectedUpdate (id : String) (b : Body) : Stmt :=
  ⟨"UPDATE product SET " ++ ", ".intercalate (updateClauses b) ++ " WHERE productID = ?",
   (presentFields b).map (fun f => f.2) ++ [.str id]⟩

/-- Number of `?` characters in a statement text. -/
def placeholders (sql : String) : Nat := sql.toList.count '?'

/-! ## Validation, as the specification words it -/

/-- A required field that is missing or empty. -/
def missingOrEmpty (v : JsVal) : Prop := v = .undefined ∨ v = .str ""

/-- The requests the specification calls validation failures: a product type create
or update without a `productType`, a product create without a `productName` or a
`productTypeID`, and a general product update with none of the five mutable fields. -/
def failsValidation : Request → Prop
  | .postProductType body => missingOrEmpty body.productType
  | .putProductType _ body => missingOrEmpty body.productType
  | .postProduct body => missingOrEmpty body.productName ∨ missingOrEmpty body.productTypeID
  | .putProduct _ body => presentFields body = []
  | _ => False

/-- The scripted replies of a store that finds product type 1 but whose write
affects no row. -/
def typeFoundThenNoRow : List Reply :=
  [.ok (.rows [[("productTypeID", .num 1)]]), .ok (.header 0 0)]

/-- The reference error of the integrity check. -/
def invalidReference : Response := failure 400 "Invalid productTypeID"

/-- The scripted replies used in the examples: an existence lookup that finds
product type 1, then a write that affects one row and reports insert id 42. -/
def typeFoundThenWritten : List Reply :=
  [.ok (.rows [[("productTypeID", .num 1)]]), .ok (.header 1 42)]

/-! ## Placeholders of a statement text -/

/-- The two placeholders of the client's statement format: `??` takes an
identifier, `?` takes a value. -/
inductive Placeholder where
  | identifier
  | value
deriving DecidableEq, Repr

/-- The placeholders of a statement text, left to right. -/
def placeholderKinds : List Char → List Placeholder
  | '?' :: '?' :: rest => .identifier :: placeholderKinds rest
  | '?' :: rest => .value :: placeholderKinds rest
  | _ :: rest => placeholderKinds rest
  | [] => []

/-- The parameters of a statement, each with the placeholder it is bound to. -/
def bindings (q : Stmt) : List (Placeholder × JsVal) :=
  (placeholderKinds q.sql.toList).zip q.params

/-! ## The response envelope, as the specification words it -/

/-- The response carries a boolean `success` field. -/
def hasBooleanSuccess (r : Response) : Prop :=
  ∃ b, r.field "success" = some (.val (.bool b))

/-- The response is a failure envelope: `success` is false and `message` is a
non-empty string. -/
def isFailureEnvelope (r : Response) : Prop :=
  r.field "success" = some (.val (.bool false))
    ∧ ∃ m, r.field "message" = some (.val (.str m)) ∧ m ≠ ""

/-- The envelope invariant of one response. -/
def enveloped (r : Response) : Prop :=
  hasBooleanSuccess r ∧ (400 ≤ r.status → isFailureEnvelope r)

/-- A create body whose cost is `null` and whose price is the empty string. -/
def falsyCostsBody : Body :=
  { productName := .str "Tea", productTypeID := .num 1, totalCost := .null, salePrice := .str "" }

/-- A store whose every call throws a connection error. -/
def refusingStore : Execute Unit := fun _ _ =>
  (.throws ⟨"connect ECONNREFUSED 127.0.0.1:3306"⟩, ())

/-- The value bound by the low-stock listing, as the specification words it: the
path threshold as received, 10 without one. -/
def boundThreshold : Option String → JsVal
  | some t => .str t
  | none => .num 10

/-! ## Theorems -/

section Theorems
variable {σ : Type}

/-- The statements executed by the tail of the dynamic update when some clause was
collected: those already issued, then the UPDATE. -/
theorem putProductFinish_trace (db : Execute σ) (s : σ) (id : String) (updates : List String)
    (values : List JsVal) (issued : List Stmt) (h : updates ≠ []) :
    (putProductFinish db s id updates values issued).trace =
      issued ++ [⟨"UPDATE product SET " ++ ", ".intercalate updates ++ " WHERE productID = ?",
                  values ++ [.str id]⟩] := by
  unfold putProductFinish
  have hlen : ¬ updates.length = 0 := by simpa using h
  simp only [hlen, if_false]
  split
  · rfl
  · split <;> rfl

/-- A result with at least one row does not have length 0. -/
theorem length_rows_cons (r : Row) (rs : List Row) :
    (ExecResult.rows (r :: rs)).length ≠ .num 0 := by
  simp only [ExecResult.length, List.length_cons, ne_eq, JsVal.num.injEq]
  omega

set_option maxHeartbeats 4000000 in
/-- C1: in the general product update, when at least one mutable field is present
and the existence lookup of a present productTypeID returns a row, the statements
executed are that lookup (if any) followed by one UPDATE whose text has exactly one
clause for each present field and none for an absent one, in the fixed order, whose
parameters are the present values in that order followed by the id, and whose number
of placeholders equals the number of parameters. -/
theorem C1_put_product_update_statement (db : Execute σ) (s : σ) (id : String) (body : Body)
    (hsome : presentFields body ≠ [])
    (hlookup : body.productTypeID ≠ .undefined →
      ∃ r rs, (db s (typeCheckStmt body.productTypeID)).1 = .ok (.rows (r :: rs))) :
    (putProduct db s id body).trace =
        (if body.productTypeID ≠ .undefined then [typeCheckStmt body.productTypeID] else [])
          ++ [expectedUpdate id body]
      ∧ (∀ f ∈ mutableFields body,
          (updateClauses body).count (f.1 ++ " = ?") = if f.2 = .undefined then 0 else 1)
      ∧ (expectedUpdate id body).params = (presentFields body).map (fun f => f.2) ++ [.str id]
      ∧ placeholders (expectedUpdate id body).sql = (expectedUpdate id body).params.length := by
  obtain ⟨pt, pn, tc, sp, sa, ptid⟩ := body
  simp only at hlookup
  have hall : ¬ (pn = .undefined ∧ tc = .undefined ∧ sp = .undefined ∧ sa = .undefined ∧
      ptid = .undefined) := by
    rintro ⟨h1, h2, h3, h4, h5⟩
    exact hsome (by simp [presentFields, mutableFields, h1, h2, h3, h4, h5])
  by_cases h5 : ptid = .undefined
  · by_cases h1 : pn = .undefined <;> by_cases h2 : tc = .undefined <;>
      by_cases h3 : sp = .undefined <;> by_cases h4 : sa = .undefined <;>
      first
      | (exfalso; apply hall; simp only [h1, h2, h3, h4, h5, and_self]; done)
      | (refine ⟨?_, ?_, rfl, ?_⟩
         · simp [putProduct, putProductFinish_trace, expectedUpdate, updateClauses,
             presentFields, mutableFields, h1, h2, h3, h4, h5]
         · simp only [updateClauses, presentFields, mutableFields, List.forall_mem_cons,
             List.filter_cons, List.filter_nil, h1, h2, h3, h4, h5, ne_eq, not_true_eq_false,
             not_false_eq_true, decide_True, decide_False, if_true, if_false, List.map_cons,
             List.map_nil, List.not_mem_nil, false_implies, implies_true, and_true,
             Bool.false_eq_true]
           decide
         · simp only [placeholders, expectedUpdate, updateClauses, presentFields, mutableFields,
             List.filter_cons, List.filter_nil, h1, h2, h3, h4, h5, ne_eq, not_true_eq_false,
             not_false_eq_true, decide_True, decide_False, if_true, if_false, List.map_cons,
             List.map_nil, List.length_cons, List.length_nil, List.cons_append, List.nil_append,
             Bool.false_eq_true]
           decide)
  · obtain ⟨r, rs, hr⟩ := hlookup h5
    have hlen := length_rows_cons r rs
    by_cases h1 : pn = .undefined <;> by_cases h2 : tc = .undefined <;>
      by_cases h3 : sp = .undefined <;> by_cases h4 : sa = .undefined <;>
      (refine ⟨?_, ?_, rfl, ?_⟩
       · simp [putProduct, putProductFinish_trace, expectedUpdate, updateClauses,
           presentFields, mutableFields, h1, h2, h3, h4, h5, hr, hlen]
       · simp only [updateClauses, presentFields, mutableFields, List.forall_mem_cons,
           List.filter_cons, List.filter_nil, h1, h2, h3, h4, h5, ne_eq, not_true_eq_false,
           not_false_eq_true, decide_True, decide_False, if_true, if_false, List.map_cons,
           List.map_nil, List.not_mem_nil, false_implies, implies_true, and_true,
           Bool.false_eq_true]
         decide
       · simp only [placeholders, expectedUpdate, updateClauses, presentFields, mutableFields,
           List.filter_cons, List.filter_nil, h1, h2, h3, h4, h5, ne_eq, not_true_eq_false,
           not_false_eq_true, decide_True, decide_False, if_true, if_false, List.map_cons,
           List.map_nil, List.length_cons, List.length_nil, List.cons_append, List.nil_append,
           Bool.false_eq_true]
         decide)

/-- Witness of C1: a body with `stockAmount` and an existing `productTypeID`. -/
theorem C1_put_product_update_statement_witness :
    ((putProduct scripted typeFoundThenWritten "7"
        { stockAmount := .num 5, productTypeID := .num 1 }).trace =
        (if (JsVal.num 1) ≠ .undefined then [typeCheckStmt (.num 1)] else [])
          ++ [expectedUpdate "7" { stockAmount := .num 5, productTypeID := .num 1 }]
      ∧ (∀ f ∈ mutableFields { stockAmount := .num 5, productTypeID := .num 1 },
          (updateClauses { stockAmount := .num 5, productTypeID := .num 1 }).count
            (f.1 ++ " = ?") = if f.2 = .undefined then 0 else 1)
      ∧ (expectedUpdate "7" { stockAmount := .num 5, productTypeID := .num 1 }).params =
          (presentFields { stockAmount := .num 5, productTypeID := .num 1 }).map (fun f => f.2)
            ++ [.str "7"]
      ∧ placeholders (expectedUpdate "7" { stockAmount := .num 5, productTypeID := .num 1 }).sql
          = (expectedUpdate "7" { stockAmount := .num 5, productTypeID := .num 1 }).params.length)
    ∧ expectedUpdate "7" { stockAmount := .num 5, productTypeID := .num 1 } =
        ⟨"UPDATE product SET stockAmount = ?, productTypeID = ? WHERE productID = ?",
         [.num 5, .num 1, .str "7"]⟩ :=
  ⟨C1_put_product_update_statement scripted typeFoundThenWritten "7"
      { stockAmount := .num 5, productTypeID := .num 1 } (by decide)
      (fun _ => ⟨_, _, rfl⟩),
   by decide⟩

/-- C2 as stated fails on the product create: with a `productTypeID` whose lookup
returns no row but without a `productName`, the response is the required-fields
validation error, not the reference error. -/
theorem C2_create_without_name_counterexample :
    (emptyStore () (typeCheckStmt (.num 999))).1 = .ok (.rows [])
    ∧ (postProduct emptyStore () { productTypeID := .num 999 }).response =
        failure 400 "productName and productTypeID are required"
    ∧ (postProduct emptyStore () { productTypeID := .num 999 }).response ≠ invalidReference := by
  decide

/-- C2, amended: when the existence lookup of the submitted `productTypeID` returns
no row, the product create answers 400 and executes no statement other than that
lookup, whatever the rest of the body: with a `productName` or a `productTypeID`
that is not truthy it answers the required-fields validation message and makes no
store call at all, and with both truthy it answers the reference error (400,
`Invalid productTypeID`) after the lookup alone.  The general update with
`productTypeID` present and the dedicated type update each answer the reference
error, and the lookup is the only statement executed: no write is issued. -/
theorem C2_missing_type_is_rejected_without_write (db : Execute σ) (s : σ) (id : String)
    (body : Body)
    (hlookup : (db s (typeCheckStmt body.productTypeID)).1 = .ok (.rows [])) :
    ((postProduct db s body).response.status = 400
        ∧ ∀ q ∈ (postProduct db s body).trace, q = typeCheckStmt body.productTypeID)
    ∧ (body.productName.truthy = false ∨ body.productTypeID.truthy = false →
        postProduct db s body =
          ⟨⟨400, [("success", .val (.bool false)),
                  ("message", .val (.str "productName and productTypeID are required"))]⟩,
            [], s⟩)
    ∧ (body.productName.truthy = true → body.productTypeID.truthy = true →
        postProduct db s body =
          ⟨invalidReference, [typeCheckStmt body.productTypeID],
            (db s (typeCheckStmt body.productTypeID)).2⟩)
    ∧ (body.productTypeID ≠ .undefined →
        putProduct db s id body =
          ⟨invalidReference, [typeCheckStmt body.productTypeID],
            (db s (typeCheckStmt body.productTypeID)).2⟩)
    ∧ putProductTypeID db s id body =
        ⟨invalidReference, [typeCheckStmt body.productTypeID],
          (db s (typeCheckStmt body.productTypeID)).2⟩
    ∧ invalidReference =
        ⟨400, [("success", .val (.bool false)),
               ("message", .val (.str "Invalid productTypeID"))]⟩ := by
  refine ⟨?_, ?_, ?_, ?_, ?_, rfl⟩
  · by_cases hv : (!body.productName.truthy || !body.productTypeID.truthy) = true
    · simp [postProduct, hv, failure]
    · simp [postProduct, hv, hlookup, ExecResult.length, failure]
  · intro hv
    rcases hv with hv | hv <;> simp [postProduct, hv, failure]
  · intro hn ht
    simp [postProduct, hn, ht, hlookup, ExecResult.length, invalidReference]
  · intro hp
    simp [putProduct, hp, hlookup, ExecResult.length, invalidReference]
  · simp [putProductTypeID, hlookup, ExecResult.length, invalidReference]

/-- Witness of C2: a store without product types, with a complete create body and
with a create body that lacks the name. -/
theorem C2_missing_type_is_rejected_without_write_witness :
    (emptyStore () (typeCheckStmt (.num 999))).1 = .ok (.rows [])
    ∧ postProduct emptyStore () { productName := .str "Tea", productTypeID := .num 999 } =
        ⟨invalidReference, [typeCheckStmt (.num 999)], ()⟩
    ∧ putProduct emptyStore () "7" { productName := .str "Tea", productTypeID := .num 999 } =
        ⟨invalidReference, [typeCheckStmt (.num 999)], ()⟩
    ∧ putProductTypeID emptyStore () "7" { productName := .str "Tea", productTypeID := .num 999 } =
        ⟨invalidReference, [typeCheckStmt (.num 999)], ()⟩
    ∧ postProduct emptyStore () { productName := .null, productTypeID := .num 999 } =
        ⟨⟨400, [("success", .val (.bool false)),
                ("message", .val (.str "productName and productTypeID are required"))]⟩,
          [], ()⟩ :=
  have h := C2_missing_type_is_rejected_without_write emptyStore () "7"
    { productName := .str "Tea", productTypeID := .num 999 } (by decide)
  have k := C2_missing_type_is_rejected_without_write emptyStore () "7"
    { productName := .null, productTypeID := .num 999 } (by decide)
  ⟨by decide, h.2.2.1 (by decide) (by decide), h.2.2.2.1 (by decide), h.2.2.2.2.1,
   k.2.1 (Or.inl (by decide))⟩

/-- C3: when the COUNT of the product type delete returns a count greater than 0,
the handler answers 400 with success false and the dependency message, the COUNT is
the only statement executed (no DELETE is issued), and the store is left in the state
the COUNT query left it in. -/
theorem C3_delete_type_with_dependents (env : Env) (db : Execute σ) (s : σ) (id : String)
    (row : Row) (rest : List Row) (n : Int)
    (hcount : (db s (countProductsOfType id)).1 = .ok (.rows (row :: rest)))
    (hn : row.get "count" = .num n) (hpos : 0 < n) :
    (deleteProductType env db s id).response =
        ⟨400, [("success", .val (.bool false)),
               ("message", .val (.str
                 "Cannot delete product type. There are products using this type."))]⟩
    ∧ (deleteProductType env db s id).trace = [countProductsOfType id]
    ∧ deleteProductTypeStmt id ∉ (deleteProductType env db s id).trace
    ∧ (deleteProductType env db s id).final = (db s (countProductsOfType id)).2 := by
  have hne : ¬ deleteProductTypeStmt id = countProductsOfType id := by
    simp only [deleteProductTypeStmt, countProductsOfType, Stmt.mk.injEq, and_true]
    decide
  simp [deleteProductType, hcount, ExecResult.first, hn, jsGtZero, hpos, failure, hne]

/-- Witness of C3: three products reference type 1. -/
theorem C3_delete_type_with_dependents_witness :
    (deleteProductType production scripted [.ok (.rows [[("count", .num 3)]])] "1").response =
        ⟨400, [("success", .val (.bool false)),
               ("message", .val (.str
                 "Cannot delete product type. There are products using this type."))]⟩
    ∧ (deleteProductType production scripted [.ok (.rows [[("count", .num 3)]])] "1").trace =
        [countProductsOfType "1"]
    ∧ deleteProductTypeStmt "1" ∉
        (deleteProductType production scripted [.ok (.rows [[("count", .num 3)]])] "1").trace
    ∧ (deleteProductType production scripted [.ok (.rows [[("count", .num 3)]])] "1").final =
        (scripted [.ok (.rows [[("count", .num 3)]])] (countProductsOfType "1")).2 :=
  C3_delete_type_with_dependents production scripted [.ok (.rows [[("count", .num 3)]])] "1"
    [("count", .num 3)] [] 3 rfl (by decide) (by decide)

/-- A missing or empty value is falsy. -/
theorem truthy_of_missingOrEmpty (v : JsVal) (h : missingOrEmpty v) : v.truthy = false := by
  rcases h with h | h <;> subst h <;> rfl

/-- C4: every validation failure (product type create or update without
`productType`, product create without `productName` or `productTypeID`, general
product update with no mutable field) is answered with status 400 and success false,
and no statement is executed against the store. -/
theorem C4_validation_failure_makes_no_store_call (env : Env) (db : Execute σ) (s : σ)
    (req : Request) (h : failsValidation req) :
    (handle env db s req).response.status = 400
    ∧ (handle env db s req).response.field "success" = some (.val (.bool false))
    ∧ (handle env db s req).trace = []
    ∧ (handle env db s req).final = s := by
  cases req <;> simp only [failsValidation] at h
  case postProductType body =>
    simp [handle, postProductType, truthy_of_missingOrEmpty _ h, failure, Response.field]
  case putProductType id body =>
    simp [handle, putProductType, truthy_of_missingOrEmpty _ h, failure, Response.field]
  case postProduct body =>
    rcases h with h | h <;>
      simp [handle, postProduct, truthy_of_missingOrEmpty _ h, failure, Response.field]
  case putProduct id body =>
    simp [presentFields, mutableFields, List.filter_eq_nil_iff] at h
    obtain ⟨h1, h2, h3, h4, h5⟩ := h
    simp [handle, putProduct, putProductFinish, h1, h2, h3, h4, h5, failure, Response.field]

/-- Witness of C4: a general product update with an empty body. -/
theorem C4_validation_failure_makes_no_store_call_witness :
    failsValidation (.putProduct "7" {})
    ∧ (handle production scripted typeFoundThenWritten (.putProduct "7" {})).response.status = 400
    ∧ (handle production scripted typeFoundThenWritten (.putProduct "7" {})).response.field
        "success" = some (.val (.bool false))
    ∧ (handle production scripted typeFoundThenWritten (.putProduct "7" {})).trace = []
    ∧ (handle production scripted typeFoundThenWritten (.putProduct "7" {})).final =
        typeFoundThenWritten :=
  ⟨by simp [failsValidation, presentFields, mutableFields],
   C4_validation_failure_makes_no_store_call production scripted typeFoundThenWritten
     (.putProduct "7" {}) (by simp [failsValidation, presentFields, mutableFields])⟩

/-- The dynamic update collects exactly the clauses and values of the present
fields before it reaches its tail. -/
theorem putProduct_eq (db : Execute σ) (s : σ) (id : String) (body : Body) :
    putProduct db s id body =
      if body.productTypeID ≠ .undefined then
        match (db s (typeCheckStmt body.productTypeID)).1 with
        | .throws error =>
          ⟨caught "Error updating product" error, [typeCheckStmt body.productTypeID],
            (db s (typeCheckStmt body.productTypeID)).2⟩
        | .ok typeCheck =>
          if typeCheck.length = .num 0 then
            ⟨failure 400 "Invalid productTypeID", [typeCheckStmt body.productTypeID],
              (db s (typeCheckStmt body.productTypeID)).2⟩
          else
            putProductFinish db (db s (typeCheckStmt body.productTypeID)).2 id
              (updateClauses body) ((presentFields body).map (fun f => f.2))
              [typeCheckStmt body.productTypeID]
      else
        putProductFinish db s id (updateClauses body)
          ((presentFields body).map (fun f => f.2)) [] := by
  obtain ⟨pt, pn, tc, sp, sa, ptid⟩ := body
  by_cases h1 : pn = .undefined <;> by_cases h2 : tc = .undefined <;>
    by_cases h3 : sp = .undefined <;> by_cases h4 : sa = .undefined <;>
    by_cases h5 : ptid = .undefined <;>
    simp [putProduct, updateClauses, presentFields, mutableFields, h1, h2, h3, h4, h5]

/-- The tail of the dynamic update answers 404 when its UPDATE affects no row. -/
theorem putProductFinish_notFound (db : Execute σ) (s : σ) (id : String)
    (updates : List String) (values : List JsVal) (issued : List Stmt) (i : Nat)
    (h : updates ≠ [])
    (hupd : (db s ⟨"UPDATE product SET " ++ ", ".intercalate updates ++ " WHERE productID = ?",
                   values ++ [.str id]⟩).1 = .ok (.header 0 i)) :
    (putProductFinish db s id updates values issued).response =
      failure 404 "Product not found" := by
  have hlen : ¬ updates.length = 0 := by simpa using h
  simp [putProductFinish, hlen, hupd, ExecResult.affectedRows]

/-- C5 as stated fails: with an identifier absent from the store, an update without
the required field, a general update with an empty body, a type update whose type
lookup finds nothing, and a type delete whose dependency count is positive are each
answered 400, not 404. -/
theorem C5_absent_id_counterexample :
    (emptyStore () ⟨"UPDATE productType SET productType = ? WHERE productTypeID = ?",
        [.undefined, .str "5"]⟩).1 = .ok (.header 0 0)
    ∧ (handle production emptyStore () (.putProductType "5" {})).response.status = 400
    ∧ (handle production emptyStore () (.putProduct "5" {})).response.status = 400
    ∧ (emptyStore () (updateTypeStmt "5" (.num 1))).1 = .ok (.header 0 0)
    ∧ (handle production emptyStore () (.putProductTypeID "5" { productTypeID := .num 1 })
        ).response.status = 400
    ∧ (handle production scripted [.ok (.rows [[("count", .num 2)]]), .ok (.header 0 0)]
        (.deleteProductType "5")).response.status = 400 := by
  decide

/-- C5, amended: with an identifier absent from the store (the id-targeted SELECT
returns no row, or the id-targeted UPDATE or DELETE affects no row), each endpoint
that takes an id answers 404 with success false, provided the request reaches its
id-targeted statement: the update of a product type carries a truthy `productType`,
the general product update has a mutable field present and the lookup of a present
`productTypeID` finds a row, the dedicated type update finds its type, and the
dependency count of the type delete is not positive.  A request stopped before that
statement by validation, by the reference check or by the dependency check is
answered 400. -/
theorem C5_absent_id_is_not_found (env : Env) (db : Execute σ) (s : σ) (id table : String)
    (body : Body) :
    ((db s ⟨"SELECT * FROM productType WHERE productTypeID = ?", [.str id]⟩).1 = .ok (.rows []) →
        (getProductType db s id).response = failure 404 "Product type not found")
    ∧ (body.productType.truthy = true → ∀ i,
        (db s ⟨"UPDATE productType SET productType = ? WHERE productTypeID = ?",
          [body.productType, .str id]⟩).1 = .ok (.header 0 i) →
        (putProductType db s id body).response = failure 404 "Product type not found")
    ∧ (∀ row rest i, (db s (countProductsOfType id)).1 = .ok (.rows (row :: rest)) →
        jsGtZero env (row.get "count") = false →
        (db (db s (countProductsOfType id)).2 (deleteProductTypeStmt id)).1 = .ok (.header 0 i) →
        (deleteProductType env db s id).response = failure 404 "Product type not found")
    ∧ ((db s ⟨productSelect ++ "      WHERE p.productID = ?\n    ", [.str id]⟩).1 = .ok (.rows []) →
        (getProduct db s id).response = failure 404 "Product not found")
    ∧ (presentFields body ≠ [] → body.productTypeID = .undefined → ∀ i,
        (db s (expectedUpdate id body)).1 = .ok (.header 0 i) →
        (putProduct db s id body).response = failure 404 "Product not found")
    ∧ (body.productTypeID ≠ .undefined → ∀ r rs i,
        (db s (typeCheckStmt body.productTypeID)).1 = .ok (.rows (r :: rs)) →
        (db (db s (typeCheckStmt body.productTypeID)).2 (expectedUpdate id body)).1 =
          .ok (.header 0 i) →
        (putProduct db s id body).response = failure 404 "Product not found")
    ∧ (∀ r rs i, (db s (typeCheckStmt body.productTypeID)).1 = .ok (.rows (r :: rs)) →
        (db (db s (typeCheckStmt body.productTypeID)).2
          (updateTypeStmt id body.productTypeID)).1 = .ok (.header 0 i) →
        (putProductTypeID db s id body).response = failure 404 "Product not found")
    ∧ (∀ i, (db s ⟨"DELETE FROM product WHERE productID = ?", [.str id]⟩).1 = .ok (.header 0 i) →
        (deleteProduct db s id).response = failure 404 "Product not found")
    ∧ ((db s ⟨"SELECT * FROM ?? WHERE id = ?", [.str table, .str id]⟩).1 = .ok (.rows []) →
        (genericGet db s table id).response = failure 404 "Record not found")
    ∧ (body.productType.truthy = false →
        (putProductType db s id body).response = failure 400 "productType is required")
    ∧ (presentFields body = [] →
        (putProduct db s id body).response = failure 400 "No fields to update")
    ∧ (body.productTypeID ≠ .undefined →
        (db s (typeCheckStmt body.productTypeID)).1 = .ok (.rows []) →
        (putProduct db s id body).response = failure 400 "Invalid productTypeID")
    ∧ ((db s (typeCheckStmt body.productTypeID)).1 = .ok (.rows []) →
        (putProductTypeID db s id body).response = failure 400 "Invalid productTypeID")
    ∧ (∀ row rest, (db s (countProductsOfType id)).1 = .ok (.rows (row :: rest)) →
        jsGtZero env (row.get "count") = true →
        (deleteProductType env db s id).response =
          failure 400 "Cannot delete product type. There are products using this type.") := by
  refine ⟨?_, ?_, ?_, ?_, ?_, ?_, ?_, ?_, ?_, ?_, ?_, ?_, ?_, ?_⟩
  · intro h
    simp [getProductType, h, ExecResult.length]
  · intro ht i h
    simp [putProductType, ht, h, ExecResult.affectedRows]
  · intro row rest i hc hz hd
    simp [deleteProductType, hc, ExecResult.first, hz, hd, ExecResult.affectedRows]
  · intro h
    simp [getProduct, h, ExecResult.length]
  · intro hsome hty i hupd
    have hcl : updateClauses body ≠ [] := by simpa [updateClauses] using hsome
    rw [putProduct_eq]
    simp only [hty, ne_eq, not_true_eq_false, if_false]
    exact putProductFinish_notFound db s id _ _ _ i hcl hupd
  · intro hty r rs i hlook hupd
    have hcl : updateClauses body ≠ [] := by
      simp [updateClauses, presentFields, mutableFields, hty]
    rw [putProduct_eq]
    simp only [hty, ne_eq, not_false_eq_true, if_true, hlook, length_rows_cons r rs, if_false]
    exact putProductFinish_notFound db _ id _ _ _ i hcl hupd
  · intro r rs i hlook hupd
    simp [putProductTypeID, hlook, length_rows_cons r rs, hupd, ExecResult.affectedRows]
  · intro i h
    simp [deleteProduct, h, ExecResult.affectedRows]
  · intro h
    simp [genericGet, h, ExecResult.length]
  · intro ht
    simp [putProductType, ht]
  · intro hnone
    simp [presentFields, mutableFields, List.filter_eq_nil_iff] at hnone
    obtain ⟨h1, h2, h3, h4, h5⟩ := hnone
    simp [putProduct, putProductFinish, h1, h2, h3, h4, h5]
  · intro hty hlook
    simp [putProduct, hty, hlook, ExecResult.length]
  · intro hlook
    simp [putProductTypeID, hlook, ExecResult.length]
  · intro row rest hc hpos
    simp [deleteProductType, hc, ExecResult.first, hpos]

/-- Witness of C5: the store without rows with a product type update that names a
type and a product update of the stock, a store that finds type 1 but affects no
product row with a product update that sets the type, and the requests that are
stopped earlier with 400. -/
theorem C5_absent_id_is_not_found_witness :
    (getProductType emptyStore () "5").response = failure 404 "Product type not found"
    ∧ (putProductType emptyStore () "5" { productType := .str "Soap", stockAmount := .num 3 }
        ).response = failure 404 "Product type not found"
    ∧ (deleteProductType production emptyStore () "5").response =
        failure 404 "Product type not found"
    ∧ (getProduct emptyStore () "5").response = failure 404 "Product not found"
    ∧ (putProduct emptyStore () "5" { productType := .str "Soap", stockAmount := .num 3 }
        ).response = failure 404 "Product not found"
    ∧ (putProduct scripted typeFoundThenNoRow "5" { productTypeID := .num 1 }).response =
        failure 404 "Product not found"
    ∧ (putProductTypeID scripted typeFoundThenNoRow "5" { productTypeID := .num 1 }).response =
        failure 404 "Product not found"
    ∧ (deleteProduct emptyStore () "5").response = failure 404 "Product not found"
    ∧ (genericGet emptyStore () "product" "5").response = failure 404 "Record not found"
    ∧ (putProductType emptyStore () "5" { productTypeID := .num 1 }).response =
        failure 400 "productType is required"
    ∧ (putProduct emptyStore () "5" { productType := .str "Soap" }).response =
        failure 400 "No fields to update"
    ∧ (putProduct emptyStore () "5" { productTypeID := .num 1 }).response =
        failure 400 "Invalid productTypeID"
    ∧ (putProductTypeID emptyStore () "5" { productTypeID := .num 1 }).response =
        failure 400 "Invalid productTypeID"
    ∧ (deleteProductType production scripted [.ok (.rows [[("count", .num 2)]])] "5").response =
        failure 400 "Cannot delete product type. There are products using this type." :=
  have h := C5_absent_id_is_not_found production emptyStore () "5" "product"
    { productType := .str "Soap", stockAmount := .num 3 }
  have k := C5_absent_id_is_not_found production scripted typeFoundThenNoRow "5" "product"
    { productTypeID := .num 1 }
  have e := C5_absent_id_is_not_found production emptyStore () "5" "product"
    { productTypeID := .num 1 }
  have f := C5_absent_id_is_not_found production emptyStore () "5" "product"
    { productType := .str "Soap" }
  have g := C5_absent_id_is_not_found production scripted [.ok (.rows [[("count", .num 2)]])]
    "5" "product" {}
  ⟨h.1 (by decide), h.2.1 (by decide) 0 (by decide),
   h.2.2.1 [("count", .num 0)] [] 0 (by decide) (by decide) (by decide),
   h.2.2.2.1 (by decide), h.2.2.2.2.1 (by decide) (by decide) 0 (by decide),
   k.2.2.2.2.2.1 (by decide) [("productTypeID", .num 1)] [] 0 (by decide) (by decide),
   k.2.2.2.2.2.2.1 [("productTypeID", .num 1)] [] 0 (by decide) (by decide),
   h.2.2.2.2.2.2.2.1 0 (by decide), h.2.2.2.2.2.2.2.2.1 (by decide),
   e.2.2.2.2.2.2.2.2.2.1 (by decide), f.2.2.2.2.2.2.2.2.2.2.1 (by decide),
   e.2.2.2.2.2.2.2.2.2.2.2.1 (by decide) (by decide),
   e.2.2.2.2.2.2.2.2.2.2.2.2.1 (by decide),
   g.2.2.2.2.2.2.2.2.2.2.2.2.2 [("count", .num 2)] [] (by decide) (by decide)⟩

/-- The one statement the generic list executes. -/
theorem genericList_trace (db : Execute σ) (s : σ) (table : String) :
    (genericList db s table).trace = [⟨"SELECT * FROM ??", [.str table]⟩] := by
  simp only [genericList]
  split <;> rfl

/-- The one statement the generic get-by-id executes. -/
theorem genericGet_trace (db : Execute σ) (s : σ) (table id : String) :
    (genericGet db s table id).trace =
      [⟨"SELECT * FROM ?? WHERE id = ?", [.str table, .str id]⟩] := by
  simp only [genericGet]
  split
  · rfl
  · split <;> rfl

/-- The one statement the generic search executes. -/
theorem genericSearch_trace (db : Execute σ) (s : σ) (table field value : String) :
    (genericSearch db s table field value).trace =
      [⟨"SELECT * FROM ?? WHERE ?? LIKE ?",
        [.str table, .str field, .str ("%" ++ value ++ "%")]⟩] := by
  simp only [genericSearch]
  split <;> rfl

/-- C6: each generic endpoint executes one statement whose text is a fixed string,
the same for any two requests whatever the table, id, field, value and store; the
table and field names occur only in the parameter list, bound to the `??`
placeholders, the id is bound to `?`, and the search value is bound to `?` as
`%value%`. -/
theorem C6_generic_identifiers_are_bound (db db2 : Execute σ) (s s2 : σ)
    (table id field value table2 id2 field2 value2 : String) :
    (genericList db s table).trace = [⟨"SELECT * FROM ??", [.str table]⟩]
    ∧ (genericGet db s table id).trace =
        [⟨"SELECT * FROM ?? WHERE id = ?", [.str table, .str id]⟩]
    ∧ (genericSearch db s table field value).trace =
        [⟨"SELECT * FROM ?? WHERE ?? LIKE ?",
          [.str table, .str field, .str ("%" ++ value ++ "%")]⟩]
    ∧ (genericList db s table).trace.map Stmt.sql =
        (genericList db2 s2 table2).trace.map Stmt.sql
    ∧ (genericGet db s table id).trace.map Stmt.sql =
        (genericGet db2 s2 table2 id2).trace.map Stmt.sql
    ∧ (genericSearch db s table field value).trace.map Stmt.sql =
        (genericSearch db2 s2 table2 field2 value2).trace.map Stmt.sql
    ∧ (genericList db s table).trace.map bindings = [[(.identifier, .str table)]]
    ∧ (genericGet db s table id).trace.map bindings =
        [[(.identifier, .str table), (.value, .str id)]]
    ∧ (genericSearch db s table field value).trace.map bindings =
        [[(.identifier, .str table), (.identifier, .str field),
          (.value, .str ("%" ++ value ++ "%"))]] := by
  simp only [genericList_trace, genericGet_trace, genericSearch_trace, List.map_cons,
    List.map_nil, true_and]
  refine ⟨?_, ?_, ?_⟩
  · simp only [bindings]
    rfl
  · simp only [bindings]
    rfl
  · simp only [bindings]
    rfl

/-- C7 as stated fails: a cost submitted as `null` and a price submitted as the
empty string are provided, yet both are bound as 0, not as submitted. -/
theorem C7_provided_falsy_value_counterexample :
    falsyCostsBody.totalCost ≠ .undefined ∧ falsyCostsBody.salePrice ≠ .undefined
    ∧ (postProduct scripted typeFoundThenWritten falsyCostsBody).trace =
        [typeCheckStmt (.num 1),
         ⟨"INSERT INTO product (productName, totalCost, salePrice, stockAmount, productTypeID) VALUES (?, ?, ?, ?, ?)",
          [.str "Tea", .num 0, .num 0, .num 0, .num 1]⟩]
    ∧ JsVal.num 0 ≠ falsyCostsBody.totalCost ∧ JsVal.num 0 ≠ falsyCostsBody.salePrice := by
  decide

/-- C7, amended: for a body whose `productName` and `productTypeID` are truthy and
whose type lookup returns a row, the product create executes the lookup and then
exactly one INSERT, bound to the name, the three numeric fields and the type id,
where each numeric field is bound as submitted when it is truthy and as 0 when it is
omitted or otherwise falsy (`null`, `false`, 0, the empty string); when the INSERT
returns a header the response is 201 and carries its `insertId`. -/
theorem C7_create_binds_defaults (db : Execute σ) (s : σ) (body : Body) (r : Row)
    (rs : List Row)
    (hname : body.productName.truthy = true) (htype : body.productTypeID.truthy = true)
    (hlookup : (db s (typeCheckStmt body.productTypeID)).1 = .ok (.rows (r :: rs))) :
    (postProduct db s body).trace =
        [typeCheckStmt body.productTypeID,
         ⟨"INSERT INTO product (productName, totalCost, salePrice, stockAmount, productTypeID) VALUES (?, ?, ?, ?, ?)",
          [body.productName,
           if body.totalCost.truthy = true then body.totalCost else .num 0,
           if body.salePrice.truthy = true then body.salePrice else .num 0,
           if body.stockAmount.truthy = true then body.stockAmount else .num 0,
           body.productTypeID]⟩]
    ∧ JsVal.truthy .undefined = false
    ∧ ∀ a i, (db (db s (typeCheckStmt body.productTypeID)).2 (insertProductStmt body)).1 =
          .ok (.header a i) →
        (postProduct db s body).response =
          ⟨201, [("success", .val (.bool true)),
                 ("message", .val (.str "Product created successfully")),
                 ("insertId", .val (.num i))]⟩ := by
  have hlen := length_rows_cons r rs
  refine ⟨?_, rfl, ?_⟩
  · simp only [postProduct, hname, htype, hlookup, hlen, Bool.not_true, Bool.or_self,
      Bool.false_eq_true, if_false]
    split <;> rfl
  · intro a i hins
    simp [postProduct, hname, htype, hlookup, hlen, hins, ExecResult.insertId]

/-- Witness of C7: a create with only a name, a stock and an existing type. -/
theorem C7_create_binds_defaults_witness :
    (postProduct scripted typeFoundThenWritten
        { productName := .str "Tea", stockAmount := .num 4, productTypeID := .num 1 }).trace =
        [typeCheckStmt (.num 1),
         ⟨"INSERT INTO product (productName, totalCost, salePrice, stockAmount, productTypeID) VALUES (?, ?, ?, ?, ?)",
          [.str "Tea", .num 0, .num 0, .num 4, .num 1]⟩]
    ∧ (postProduct scripted typeFoundThenWritten
        { productName := .str "Tea", stockAmount := .num 4, productTypeID := .num 1 }).response =
        ⟨201, [("success", .val (.bool true)),
               ("message", .val (.str "Product created successfully")),
               ("insertId", .val (.num 42))]⟩ :=
  have h := C7_create_binds_defaults scripted typeFoundThenWritten
    { productName := .str "Tea", stockAmount := .num 4, productTypeID := .num 1 }
    [("productTypeID", .num 1)] [] (by decide) (by decide) (by decide)
  ⟨h.1, h.2.2 1 42 (by decide)⟩

/-- The halvings counted by `excessBits` leave at most 53 significant bits when the
fuel covers the bits of the integer. -/
theorem excessBits_spec (fuel m : Nat) (h : m < 2 ^ fuel * 2 ^ 53) :
    m / 2 ^ excessBits fuel m < 2 ^ 53 := by
  induction fuel generalizing m with
  | zero => simpa [excessBits] using h
  | succ n ih =>
    unfold excessBits
    split
    · simpa
    · have hm := ih (m / 2) (by rw [pow_succ] at h; omega)
      rw [pow_succ, ← Nat.div_div_eq_div_mul, Nat.div_div_eq_div_mul, Nat.mul_comm,
        ← Nat.div_div_eq_div_mul]
      exact hm

/-- The fuel `roundToDouble` gives to `excessBits` is enough for every integer. -/
theorem excessBits_self (m : Nat) : m / 2 ^ excessBits m m < 2 ^ 53 := by
  apply excessBits_spec
  have h1 : m < 2 ^ m := Nat.lt_two_pow m
  have h2 : 0 < 2 ^ 53 := by positivity
  calc m < 2 ^ m := h1
    _ = 2 ^ m * 1 := (Nat.mul_one _).symm
    _ ≤ 2 ^ m * 2 ^ 53 := Nat.mul_le_mul_left _ h2

/-- Values of `parseInt` on typical path segments: digits, a signed number followed
by text, a hexadecimal literal, text without digits, the default 10, and integers
beyond 2^53, which are rounded to the nearest double. -/
theorem parseInt_values :
    parseInt (.str "5") = .num 5 ∧ parseInt (.str "  -12abc") = .num (-12)
    ∧ parseInt (.str "0x1F") = .num 31 ∧ parseInt (.str "abc") = .nan
    ∧ parseInt (.num 10) = .num 10
    ∧ parseInt (.str "9007199254740993") = .num 9007199254740992
    ∧ parseInt (.str "9007199254740995") = .num 9007199254740996 := by
  decide

set_option maxRecDepth 100000 in
/-- The statement of the low-stock listing is the product SELECT of the template
literal with the one condition `p.stockAmount <= ?`, ordered by stock and name. -/
theorem lowStockStmt_text (threshold : JsVal) :
    lowStockStmt threshold =
      ⟨"\n      SELECT \n        p.productID,\n        p.productName,\n        p.totalCost,\n        p.salePrice,\n        p.stockAmount,\n        p.productTypeID,\n        pt.productType\n      FROM product p\n      LEFT JOIN productType pt ON p.productTypeID = pt.productTypeID\n      WHERE p.stockAmount <= ?\n      ORDER BY p.stockAmount ASC, p.productName\n    ",
       [threshold]⟩ := by
  simp only [lowStockStmt, Stmt.mk.injEq, and_true]
  decide

/-- The low-stock handler, taken alone: it executes the one `p.stockAmount <= ?`
statement, bound to the path threshold exactly as received (a routed threshold
segment is never empty) and to 10 when it is invoked without one; when the store
returns rows, the response carries them with `count` their number and `threshold`
the integer parse of the bound value, which is 10 without a threshold. -/
theorem lowStock_handler_threshold (db : Execute σ) (s : σ) (param : Option String)
    (hseg : param ≠ some "") :
    (lowStock db s param).trace =
        [⟨"\n      SELECT \n        p.productID,\n        p.productName,\n        p.totalCost,\n        p.salePrice,\n        p.stockAmount,\n        p.productTypeID,\n        pt.productType\n      FROM product p\n      LEFT JOIN productType pt ON p.productTypeID = pt.productTypeID\n      WHERE p.stockAmount <= ?\n      ORDER BY p.stockAmount ASC, p.productName\n    ",
          [boundThreshold param]⟩]
    ∧ (lowStock db s param).trace.map bindings = [[(.value, boundThreshold param)]]
    ∧ (∀ rows, (db s (lowStockStmt (boundThreshold param))).1 = .ok (.rows rows) →
        (lowStock db s param).response =
          ⟨200, [("success", .val (.bool true)), ("data", .array rows),
                 ("count", .val (.num rows.length)),
                 ("threshold", .val (parseInt (boundThreshold param)))]⟩)
    ∧ parseInt (boundThreshold none) = .num 10 := by
  have hb : (paramValue param).orElse (.num 10) = boundThreshold param := by
    cases param with
    | none => rfl
    | some t =>
      have ht : t ≠ "" := fun h => hseg (by rw [h])
      simp [paramValue, JsVal.orElse, JsVal.truthy, boundThreshold, ht]
  have htrace : (lowStock db s param).trace = [lowStockStmt (boundThreshold param)] := by
    simp only [lowStock, hb]
    split <;> rfl
  refine ⟨?_, ?_, ?_, by decide⟩
  · rw [htrace, lowStockStmt_text]
  · rw [htrace, lowStockStmt_text]
    simp only [List.map_cons, List.map_nil, bindings]
    rfl
  · intro rows hrows
    simp [lowStock, hb, hrows, ExecResult.asField, ExecResult.length]

/-- The low-stock handler on threshold `5` with two rows returned. -/
theorem lowStock_handler_threshold_example :
    (lowStock scripted [.ok (.rows [[("productID", .num 1)], [("productID", .num 2)]])]
        (some "5")).trace.map bindings = [[(.value, .str "5")]]
    ∧ (lowStock scripted [.ok (.rows [[("productID", .num 1)], [("productID", .num 2)]])]
        (some "5")).response =
        ⟨200, [("success", .val (.bool true)),
               ("data", .array [[("productID", .num 1)], [("productID", .num 2)]]),
               ("count", .val (.num 2)),
               ("threshold", .val (.num 5))]⟩ :=
  have h := lowStock_handler_threshold scripted
    [.ok (.rows [[("productID", .num 1)], [("productID", .num 2)]])] (some "5") (by decide)
  ⟨h.2.1, (h.2.2.1 _ rfl).trans (by decide)⟩

/-- A request that the low-stock route serves without a threshold is also served by
the product-by-id route. -/
theorem lowStock_none_is_getProduct (m : Method) (path : List String) (body : Body)
    (h : (Route.serve ⟨.GET, [.lit "api", .lit "products", .lit "low-stock", .optional],
            fun caps _ => .lowStock caps.head?⟩ m path body) = some (.lowStock none)) :
    ∃ id, (Route.serve ⟨.GET, [.lit "api", .lit "products", .param],
            fun caps _ => match caps with | [id] => .getProduct id | _ => .unmatched⟩
            m path body) = some (.getProduct id) := by
  simp only [Route.serve] at h ⊢
  split at h
  · rename_i hm
    simp only [hm, if_true]
    rcases path with _ | ⟨a, _ | ⟨b, _ | ⟨c, _ | ⟨d, _ | ⟨e, rest⟩⟩⟩⟩⟩
    · simp [matchPath] at h
    · simp [matchPath] at h
    · simp [matchPath] at h
    · refine ⟨c, ?_⟩
      simp only [matchPath] at h ⊢
      split_ifs at h ⊢ <;> simp_all
    · simp only [matchPath] at h
      split_ifs at h <;> simp_all
    · simp only [matchPath] at h
      split_ifs at h <;> simp_all
  · simp at h

/-- A route whose handler invocation is never the low-stock handler without a
threshold does not serve a request that way. -/
theorem serve_ne_lowStock_none (r : Route) (m : Method) (path : List String) (body : Body)
    (hrun : ∀ caps b, r.run caps b ≠ .lowStock none) :
    r.serve m path body ≠ some (.lowStock none) := by
  intro h
  simp only [Route.serve] at h
  split at h
  · obtain ⟨caps, _, hc⟩ := Option.map_eq_some'.1 h
    exact hrun caps body hc
  · simp at h

/-- No route other than the low-stock one invokes the low-stock handler without a
threshold. -/
theorem other_routes_ne_lowStock_none (m : Method) (path : List String) (body : Body) :
    ∀ r ∈ routes.take 15 ++ routes.drop 16, r.serve m path body ≠ some (.lowStock none) := by
  intro r hr
  apply serve_ne_lowStock_none
  simp only [routes, List.take_succ_cons, List.take_zero, List.drop_succ_cons, List.drop_zero,
    List.cons_append, List.nil_append, List.mem_cons, List.mem_nil_iff, or_false] at hr
  rcases hr with rfl | rfl | rfl | rfl | rfl | rfl | rfl | rfl | rfl | rfl | rfl | rfl | rfl |
    rfl | rfl | rfl | rfl | rfl <;> intro caps b <;> dsimp only <;> (try split) <;> simp

/-- No request is dispatched to the low-stock handler without a threshold: whenever
the low-stock route would serve a request that way, the product-by-id route,
registered before it, has already served it.  The default threshold 10 of the
handler is never used by the server. -/
theorem dispatch_ne_lowStock_none (m : Method) (path : List String) (body : Body) :
    dispatch m path body ≠ .lowStock none := by
  intro hd
  unfold dispatch at hd
  split at hd
  · rename_i req hfind
    subst hd
    have others := other_routes_ne_lowStock_none m path body
    obtain ⟨r, hr, hserve⟩ := List.exists_of_findSome?_eq_some hfind
    have hmem : r ∈ routes.take 15 ++ routes.drop 16 ∨
        r = ⟨.GET, [.lit "api", .lit "products", .lit "low-stock", .optional],
              fun caps _ => .lowStock caps.head?⟩ := by
      simp only [routes, List.take_succ_cons, List.take_zero, List.drop_succ_cons,
        List.drop_zero, List.cons_append, List.nil_append, List.mem_cons, List.mem_nil_iff,
        or_false] at hr ⊢
      tauto
    rcases hmem with hmem | rfl
    · exact others r hmem hserve
    · obtain ⟨id, h9⟩ := lowStock_none_is_getProduct m path body hserve
      have hsplit : routes = routes.take 8 ++ routes.drop 8 := (List.take_append_drop 8 routes).symm
      rw [hsplit, List.findSome?_append] at hfind
      have hdrop : (routes.drop 8).findSome? (fun r => r.serve m path body) =
          some (.getProduct id) := by
        simp only [routes, List.drop_succ_cons, List.drop_zero, List.findSome?, h9]
      rw [hdrop] at hfind
      cases hpre : (routes.take 8).findSome? (fun r => r.serve m path body) with
      | none => simp [hpre] at hfind
      | some y =>
        have hy : y = .lowStock none := by simpa [hpre, Option.or] using hfind
        subst hy
        obtain ⟨r2, hr2, hs2⟩ := List.exists_of_findSome?_eq_some hpre
        refine others r2 ?_ hs2
        simp only [routes, List.take_succ_cons, List.take_zero, List.drop_succ_cons,
          List.drop_zero, List.cons_append, List.nil_append, List.mem_cons, List.mem_nil_iff,
          or_false] at hr2 ⊢
        tauto
  · exact Request.noConfusion hd

set_option maxRecDepth 100000 in
/-- C8 fails on the code for a request without a threshold: the route
`/api/products/:id` is registered before `/api/products/low-stock/:threshold?`, so
`GET /api/products/low-stock` is handled as a product lookup by id `low-stock`; no
`p.stockAmount <= ?` statement bound to 10 is executed, and on a store without such a
product the answer is 404 `Product not found`.  With a threshold segment the request
reaches the low-stock handler and binds the segment as received. -/
theorem C8_low_stock_default_is_shadowed :
    dispatch .GET ["api", "products", "low-stock"] {} = .getProduct "low-stock"
    ∧ (serve production emptyStore () .GET ["api", "products", "low-stock"] {}).trace =
        [⟨"\n      SELECT \n        p.productID,\n        p.productName,\n        p.totalCost,\n        p.salePrice,\n        p.stockAmount,\n        p.productTypeID,\n        pt.productType\n      FROM product p\n      LEFT JOIN productType pt ON p.productTypeID = pt.productTypeID\n      WHERE p.productID = ?\n    ",
          [.str "low-stock"]⟩]
    ∧ (serve production emptyStore () .GET ["api", "products", "low-stock"] {}).response =
        ⟨404, [("success", .val (.bool false)), ("message", .val (.str "Product not found"))]⟩
    ∧ lowStockStmt (.num 10) ∉
        (serve production emptyStore () .GET ["api", "products", "low-stock"] {}).trace
    ∧ dispatch .GET ["api", "products", "low-stock", "5"] {} = .lowStock (some "5")
    ∧ (serve production emptyStore () .GET ["api", "products", "low-stock", "5"] {}).trace =
        [⟨"\n      SELECT \n        p.productID,\n        p.productName,\n        p.totalCost,\n        p.salePrice,\n        p.stockAmount,\n        p.productTypeID,\n        pt.productType\n      FROM product p\n      LEFT JOIN productType pt ON p.productTypeID = pt.productTypeID\n      WHERE p.stockAmount <= ?\n      ORDER BY p.stockAmount ASC, p.productName\n    ",
          [.str "5"]⟩] := by
  decide

/-- C9 fails on the code: outside development, when the store throws, the handler
answers 500 and its body carries the message of the store error under `error`; only
the error middleware replaces the detail by a fixed text. -/
theorem C9_store_error_message_is_exposed :
    production.nodeEnv ≠ some "development"
    ∧ (handle production refusingStore () .getProductTypes).response =
        ⟨500, [("success", .val (.bool false)),
               ("message", .val (.str "Error fetching product types")),
               ("error", .val (.str "connect ECONNREFUSED 127.0.0.1:3306"))]⟩
    ∧ (handle production refusingStore () (.genericList "product")).response.field "error" =
        some (.val (.str "connect ECONNREFUSED 127.0.0.1:3306"))
    ∧ (handle production refusingStore ()
        (.escaped ⟨"connect ECONNREFUSED 127.0.0.1:3306"⟩)).response.field "error" =
        some (.val (.str "Something went wrong")) := by
  decide

/-- A failure response with a non-empty message satisfies the envelope invariant. -/
theorem enveloped_failure (code : Nat) (msg : String) (h : msg ≠ "") :
    enveloped (failure code msg) :=
  ⟨⟨false, rfl⟩, fun _ => ⟨rfl, msg, rfl, h⟩⟩

/-- A catch-block response with a non-empty message satisfies the envelope invariant. -/
theorem enveloped_caught (msg : String) (e : JsError) (h : msg ≠ "") :
    enveloped (caught msg e) :=
  ⟨⟨false, rfl⟩, fun _ => ⟨rfl, msg, rfl, h⟩⟩

/-- A response below 400 whose first key is a boolean `success` satisfies the
envelope invariant. -/
theorem enveloped_success (code : Nat) (b : Bool) (fields : List (String × Field))
    (h : code < 400) : enveloped ⟨code, ("success", .val (.bool b)) :: fields⟩ :=
  ⟨⟨b, rfl⟩, fun h400 => absurd h400 (by simp only [not_le]; exact h)⟩

/-- The tail of the dynamic update satisfies the envelope invariant. -/
theorem enveloped_putProductFinish (db : Execute σ) (s : σ) (id : String)
    (updates : List String) (values : List JsVal) (issued : List Stmt) :
    enveloped (putProductFinish db s id updates values issued).response := by
  simp only [putProductFinish]
  split
  · exact enveloped_failure _ _ (by decide)
  · split
    · exact enveloped_caught _ _ (by decide)
    · split
      · exact enveloped_failure _ _ (by decide)
      · exact enveloped_success _ _ _ (by decide)

/-- C10 as stated fails: the responses of `GET /` and `GET /health` carry no
`success` field. -/
theorem C10_root_and_health_counterexample :
    (handle production emptyStore () .root).response.field "success" = none
    ∧ (handle production emptyStore () .health).response.field "success" = none
    ∧ (handle production emptyStore () .root).response.body.map Prod.fst =
        ["message", "status", "timestamp"]
    ∧ (handle production emptyStore () .health).response.body.map Prod.fst =
        ["status", "database", "timestamp"] := by
  decide

set_option maxHeartbeats 1000000 in
/-- C10, amended: every response of a route other than `GET /` and `GET /health`
(the `/api` handlers, the unmatched-route fallback and the error middleware)
carries a boolean `success` field, and every response of any route with a status of
400 or above has `success` false and a non-empty `message`; the responses of `GET /`
and `GET /health` have status 200. -/
theorem C10_response_envelope (env : Env) (db : Execute σ) (s : σ) (req : Request) :
    (req ≠ .root → req ≠ .health → hasBooleanSuccess (handle env db s req).response)
    ∧ (400 ≤ (handle env db s req).response.status →
        isFailureEnvelope (handle env db s req).response)
    ∧ (handle env db s .root).response.status = 200
    ∧ (handle env db s .health).response.status = 200 := by
  have key : req ≠ .root → req ≠ .health → enveloped (handle env db s req).response := by
    intro hr hh
    cases req
    case root => exact absurd rfl hr
    case health => exact absurd rfl hh
    case getProductTypes =>
      simp only [handle, getProductTypes]
      split
      · exact enveloped_caught _ _ (by decide)
      · exact enveloped_success _ _ _ (by decide)
    case getProductType id =>
      simp only [handle, getProductType]
      split
      · exact enveloped_caught _ _ (by decide)
      · split
        · exact enveloped_failure _ _ (by decide)
        · exact enveloped_success _ _ _ (by decide)
    case postProductType body =>
      simp only [handle, postProductType]
      split
      · exact enveloped_failure _ _ (by decide)
      · split
        · exact enveloped_caught _ _ (by decide)
        · exact enveloped_success _ _ _ (by decide)
    case putProductType id body =>
      simp only [handle, putProductType]
      split
      · exact enveloped_failure _ _ (by decide)
      · split
        · exact enveloped_caught _ _ (by decide)
        · split
          · exact enveloped_failure _ _ (by decide)
          · exact enveloped_success _ _ _ (by decide)
    case deleteProductType id =>
      simp only [handle, deleteProductType]
      split
      · exact enveloped_caught _ _ (by decide)
      · split
        · split
          · exact enveloped_failure _ _ (by decide)
          · split
            · exact enveloped_caught _ _ (by decide)
            · split
              · exact enveloped_failure _ _ (by decide)
              · exact enveloped_success _ _ _ (by decide)
        · exact enveloped_caught _ _ (by decide)
    case getProducts =>
      simp only [handle, getProducts]
      split
      · exact enveloped_caught _ _ (by decide)
      · exact enveloped_success _ _ _ (by decide)
    case getProduct id =>
      simp only [handle, getProduct]
      split
      · exact enveloped_caught _ _ (by decide)
      · split
        · exact enveloped_failure _ _ (by decide)
        · exact enveloped_success _ _ _ (by decide)
    case postProduct body =>
      simp only [handle, postProduct]
      split
      · exact enveloped_failure _ _ (by decide)
      · split
        · exact enveloped_caught _ _ (by decide)
        · split
          · exact enveloped_failure _ _ (by decide)
          · split
            · exact enveloped_caught _ _ (by decide)
            · exact enveloped_success _ _ _ (by decide)
    case putProduct id body =>
      simp only [handle]
      rw [putProduct_eq]
      split
      · split
        · exact enveloped_caught _ _ (by decide)
        · split
          · exact enveloped_failure _ _ (by decide)
          · exact enveloped_putProductFinish _ _ _ _ _ _
      · exact enveloped_putProductFinish _ _ _ _ _ _
    case putProductTypeID id body =>
      simp only [handle, putProductTypeID]
      split
      · exact enveloped_caught _ _ (by decide)
      · split
        · exact enveloped_failure _ _ (by decide)
        · split
          · exact enveloped_caught _ _ (by decide)
          · split
            · exact enveloped_failure _ _ (by decide)
            · exact enveloped_success _ _ _ (by decide)
    case deleteProduct id =>
      simp only [handle, deleteProduct]
      split
      · exact enveloped_caught _ _ (by decide)
      · split
        · exact enveloped_failure _ _ (by decide)
        · exact enveloped_success _ _ _ (by decide)
    case searchProducts name =>
      simp only [handle, searchProducts]
      split
      · exact enveloped_caught _ _ (by decide)
      · exact enveloped_success _ _ _ (by decide)
    case productsByType typeId =>
      simp only [handle, productsByType]
      split
      · exact enveloped_caught _ _ (by decide)
      · exact enveloped_success _ _ _ (by decide)
    case lowStock threshold =>
      simp only [handle, lowStock]
      split
      · exact enveloped_caught _ _ (by decide)
      · exact enveloped_success _ _ _ (by decide)
    case genericList table =>
      simp only [handle, genericList]
      split
      · exact enveloped_caught _ _ (by decide)
      · exact enveloped_success _ _ _ (by decide)
    case genericGet table id =>
      simp only [handle, genericGet]
      split
      · exact enveloped_caught _ _ (by decide)
      · split
        · exact enveloped_failure _ _ (by decide)
        · exact enveloped_success _ _ _ (by decide)
    case genericSearch table field value =>
      simp only [handle, genericSearch]
      split
      · exact enveloped_caught _ _ (by decide)
      · exact enveloped_success _ _ _ (by decide)
    case escaped err =>
      exact ⟨⟨false, rfl⟩, fun _ => ⟨rfl, "Internal server error", rfl, by decide⟩⟩
    case unmatched => exact enveloped_failure _ _ (by decide)
  refine ⟨fun hr hh => (key hr hh).1, ?_, rfl, rfl⟩
  intro h400
  by_cases hr : req = .root
  · subst hr
    simp [handle, root] at h400
  · by_cases hh : req = .health
    · subst hh
      simp [handle, health] at h400
    · exact (key hr hh).2 h400

/-- Witness of C10: a product lookup against a store whose calls throw. -/
theorem C10_response_envelope_witness :
    hasBooleanSuccess (handle production refusingStore () (.getProduct "7")).response
    ∧ isFailureEnvelope (handle production refusingStore () (.getProduct "7")).response
    ∧ (handle production refusingStore () (.getProduct "7")).response.status = 500 :=
  have h := C10_response_envelope production refusingStore () (.getProduct "7")
  ⟨h.1 (by decide) (by decide), h.2.1 (by decide), by decide⟩

end Theorems

end Ensabun
